import Mathlib

set_option maxRecDepth 40000
set_option maxHeartbeats 1000000

/-!
Shallow embedding of the core of ivc102_daemon.py: the record parser
(try_parse_line together with the status_to_int table), the line framer
inside IVC102_Tty.data_received, the bounded sample buffer, the session
flags with start/stop/enqueue_command, and the websocket command
dispatcher (handle_start, handle_stop, handle_status, handle_fetch and
the dispatch loop of handle_ws).

Bytes are modelled as lists of natural numbers, one per byte value.
-/

abbrev Bytes := List Nat

/-- ASCII encoding of a string literal, used to write protocol byte strings
readably. -/
def ascii (s : String) : Bytes := s.data.map Char.toNat

/-- Parsed sample record, in source order: timestamp, status1, adc1,
status2, adc2.  The status components are the small integers produced by
the status_to_int table of the daemon (R maps to 0, H to 1, I to 2). -/
abbrev SampleRec := Int × Nat × Int × Nat × Int

/-- Embedding of the status_to_int dictionary of ivc102_daemon.py.  The
dictionary maps the one-byte strings R, H, I to 0, 1, 2; indexing with any
other key raises KeyError, modelled as none. -/
def status_to_int (field : Bytes) : Option Nat :=
  if field = [82] then some 0
  else if field = [72] then some 1
  else if field = [73] then some 2
  else none

/-- Decimal digit test for one byte. -/
def isDigit (b : Nat) : Bool := 48 ≤ b && b ≤ 57

/-- Tail of the digit string of a Python integer literal: further digits,
where a single underscore (byte 95) is allowed between two digits,
accumulating the decimal value. -/
def digitsAfter (acc : Nat) : Bytes → Option Nat
  | [] => some acc
  | 95 :: b :: rest =>
    if isDigit b then digitsAfter (acc * 10 + (b - 48)) rest else none
  | b :: rest =>
    if isDigit b then digitsAfter (acc * 10 + (b - 48)) rest else none

/-- Magnitude part of a Python base-10 integer over bytes: at least one
digit, single underscores permitted only between digits. -/
def pyDigits : Bytes → Option Nat
  | [] => none
  | b :: rest => if isDigit b then digitsAfter (b - 48) rest else none

/-- Embedding of the Python int() conversion as applied by try_parse_line to
one field produced by bytes.split(): such a field contains no whitespace, so
int() accepts an optional single sign byte followed by ASCII digits with
single underscores between digits, and raises ValueError otherwise. -/
def pyInt : Bytes → Option Int
  | 43 :: rest => (pyDigits rest).map (fun n => (n : Int))
  | 45 :: rest => (pyDigits rest).map (fun n => -(n : Int))
  | l => (pyDigits l).map (fun n => (n : Int))

/-- ASCII whitespace bytes recognised by bytes.split() with no argument:
space, tab, line feed, vertical tab, form feed, carriage return. -/
def isSpace (b : Nat) : Bool :=
  b = 32 || b = 9 || b = 10 || b = 11 || b = 12 || b = 13

/-- Worker of pySplit; the first argument is the current field reversed. -/
def pySplitAux : Bytes → Bytes → List Bytes
  | acc, [] => if acc = [] then [] else [acc.reverse]
  | acc, b :: rest =>
    if isSpace b then
      if acc = [] then pySplitAux [] rest
      else acc.reverse :: pySplitAux [] rest
    else pySplitAux (b :: acc) rest

/-- Embedding of bytes.split() with no argument: split on runs of ASCII
whitespace, yielding no empty fields. -/
def pySplit (l : Bytes) : List Bytes := pySplitAux [] l

/-- Field part of try_parse_line: the source indexes arr[0] through arr[4]
(an IndexError when fewer than five fields exist, extra fields unused) and
converts fields 0, 2, 4 with int() and fields 1, 3 through status_to_int;
any exception makes the whole parse fail. -/
def parse_fields : List Bytes → Option SampleRec
  | f0 :: f1 :: f2 :: f3 :: f4 :: _ =>
    match pyInt f0, status_to_int f1, pyInt f2, status_to_int f3, pyInt f4 with
    | some t, some s1, some a1, some s2, some a2 => some (t, s1, a1, s2, a2)
    | _, _, _, _, _ => none
  | _ => none

/-- Embedding of try_parse_line of ivc102_daemon.py: split the line on
whitespace and convert the first five fields; none models the exception
path caught by the caller. -/
def try_parse_line (line : Bytes) : Option SampleRec :=
  parse_fields (pySplit line)

/-!
Line framer: IVC102_Tty.data_received accumulates bytes in recvbuf, cuts
off everything up to each carriage return (byte 13) as one candidate line,
strips one trailing and then one leading line feed (byte 10), and finally
truncates recvbuf to its last 512 bytes when it grew beyond 512.
-/

/-- Candidate lines of a buffer, split at each carriage return, leftmost
first, together with the residual bytes after the last carriage return.
This is the loop of data_received that repeatedly takes everything before
the first byte 13 as a line and deletes it plus the delimiter. -/
def splitCR : Bytes → List Bytes × Bytes
  | [] => ([], [])
  | b :: rest =>
    if b = 13 then
      ([] :: (splitCR rest).1, (splitCR rest).2)
    else
      match splitCR rest with
      | ([], r) => ([], b :: r)
      | (l :: ls, r) => ((b :: l) :: ls, r)

/-- Line feed stripping of data_received: delete one trailing line feed if
present, then one leading line feed if present. -/
def stripLine (l : Bytes) : Bytes :=
  let l2 := if l.getLast? = some 10 then l.dropLast else l
  if l2.head? = some 10 then l2.tail else l2

/-- One call of the framing part of data_received: append the new data to
the receive buffer, emit every complete line (stripped), and truncate the
residual buffer to its newest 512 bytes when it exceeds 512. -/
def framer_feed (buf : Bytes) (data : Bytes) : List Bytes × Bytes :=
  let p := splitCR (buf ++ data)
  let r := if p.2.length > 512 then p.2.drop (p.2.length - 512) else p.2
  (p.1.map stripLine, r)

/-- Feeding a list of chunks one data_received call at a time, collecting
all emitted lines in order and the final residual buffer. -/
def framer_run (buf : Bytes) : List Bytes → List Bytes × Bytes
  | [] => ([], buf)
  | c :: cs =>
    let p := framer_feed buf c
    let q := framer_run p.2 cs
    (p.1 ++ q.1, q.2)

/-- Holds when, while feeding the chunks from the given buffer, the residual
receive buffer never exceeds the 512-byte cap, so the truncation branch of
data_received never fires. -/
def noOverflow : Bytes → List Bytes → Bool
  | _, [] => true
  | buf, c :: cs =>
    decide ((splitCR (buf ++ c)).2.length ≤ 512) &&
      noOverflow (splitCR (buf ++ c)).2 cs

/-!
Sample buffer and session state of IVC102_Tty.
-/

/-- One append to the sample buffer with the overflow policy of
data_received: append the record, and when the buffer length exceeds 512,
add the excess to the dropped counter and delete that many records from the
head.  The pair carries the buffer and the dropped counter drop_rx. -/
def buf_append (bd : List SampleRec × Nat) (r : SampleRec) : List SampleRec × Nat :=
  let b := bd.1 ++ [r]
  if b.length > 512 then
    (b.drop (b.length - 512), bd.2 + (b.length - 512))
  else
    (b, bd.2)

/-- Appending a list of records one at a time, starting from an empty
buffer and a zero dropped counter. -/
def append_all (rs : List SampleRec) : List SampleRec × Nat :=
  rs.foldl buf_append ([], 0)

/-- Entry of the transmit queue of IVC102_Tty: raw bytes, or bytes paired
with the settle delay to wait after sending them. -/
inductive CmdEntry where
  | plain (b : Bytes)
  | timed (b : Bytes) (delay_cs : Nat)
deriving DecidableEq

/-- Mutable state of the IVC102_Tty protocol object.  The field tx_writes
logs every transport.write call (each one a byte string), so that writes of
the control bytes 0x03 and 0x04 are observable. -/
structure Session where
  recvbuf : Bytes
  expect_data : Bool
  sent_stop : Bool
  sent_start : Bool
  txqueue : List CmdEntry
  rx_data_buf : List SampleRec
  good_rx : Nat
  bad_rx : Nat
  drop_rx : Nat
  tx_writes : List Bytes
deriving DecidableEq

/-- Embedding of IVC102_Tty.stop: write the single control byte 0x04 to the
transport and set sent_stop. -/
def Session.stop (s : Session) : Session :=
  { s with tx_writes := s.tx_writes ++ [[4]], sent_stop := true }

/-- Embedding of IVC102_Tty.start: raise RuntimeError when the transmit
queue is non-empty, otherwise write the single control byte 0x03 to the
transport and set sent_start.  The error value carries the exception
message; an error leaves the object unchanged, as the source raises before
any mutation. -/
def Session.start (s : Session) : Except String Session :=
  if s.txqueue.length ≠ 0 then
    Except.error ("Cannot start while there are commands in tx queue!")
  else
    Except.ok { s with tx_writes := s.tx_writes ++ [[3]], sent_start := true }

/-- Embedding of IVC102_Tty.enqueue_command: raise RuntimeError when
expect_data or sent_start holds, otherwise append the commands to the
transmit queue.  The source raises before any mutation, so the error case
leaves the object unchanged. -/
def Session.enqueue_command (s : Session) (commands : List CmdEntry) :
    Except String Session :=
  if s.expect_data || s.sent_start then
    Except.error ("Can only enqueue commands while system is not measuring!")
  else
    Except.ok { s with txqueue := s.txqueue ++ commands }

/-- Does the needle occur as a contiguous run inside the haystack?  This is
the str.find(sub) != -1 test of the source, expressed on the line bytes; for
lines that decode as ASCII (and for the printable part of the repr fallback)
the two agree. -/
def hasSub (needle : Bytes) : Bytes → Bool
  | [] => needle.isEmpty
  | b :: rest => needle.isPrefixOf (b :: rest) || hasSub needle rest

/-- Banner substring checked while sent_stop holds. -/
def stopBanner : Bytes := ascii ("Stop Measurement")

/-- Banner substring checked while sent_start holds. -/
def startBanner : Bytes := ascii ("Start Measurement")

/-- Per-line body of the data_received loop of IVC102_Tty, after the line
was cut out of recvbuf and stripped.  In source order: the Stop Measurement
echo clears sent_stop and expect_data; then a successful parse counts
good_rx, appends to the sample buffer with overflow handling, and forces a
stop when neither expect_data nor sent_stop holds, while a failed parse
counts bad_rx only when expect_data holds; finally the Start Measurement
echo, checked while sent_start holds, sets expect_data, clears sent_start
and clears the sample buffer. -/
def process_line (s : Session) (line : Bytes) : Session :=
  let s1 :=
    if s.sent_stop && hasSub stopBanner line then
      { s with sent_stop := false, expect_data := false }
    else s
  let s2 :=
    match try_parse_line line with
    | some r =>
      let bd := buf_append (s1.rx_data_buf, s1.drop_rx) r
      let sa := { s1 with good_rx := s1.good_rx + 1,
                          rx_data_buf := bd.1, drop_rx := bd.2 }
      if !sa.expect_data && !sa.sent_stop then sa.stop else sa
    | none =>
      if s1.expect_data then { s1 with bad_rx := s1.bad_rx + 1 } else s1
  if s2.sent_start && hasSub startBanner line then
    { s2 with expect_data := true, sent_start := false, rx_data_buf := [] }
  else s2

/-- Embedding of IVC102_Tty.data_received: buffer the data, process every
complete carriage-return-terminated line, and truncate the residual receive
buffer to its newest 512 bytes when it exceeds 512. -/
def data_received (s : Session) (data : Bytes) : Session :=
  let p := splitCR (s.recvbuf ++ data)
  let s1 := p.1.foldl (fun t l => process_line t (stripLine l)) { s with recvbuf := p.2 }
  if s1.recvbuf.length > 512 then
    { s1 with recvbuf := s1.recvbuf.drop (s1.recvbuf.length - 512) }
  else s1

/-!
Websocket command dispatcher of ivc102_daemon.py.
-/

/-- Values appearing in the json payloads and responses that the claims
examine. -/
inductive JVal where
  | jint (n : Int)
  | jstr (s : String)
  | jbool (b : Bool)
  | jrecords (rs : List SampleRec)
deriving DecidableEq

/-- Lookup of a key in a json object, modelled as an association list. -/
def jget (p : List (String × JVal)) (k : String) : Option JVal :=
  (p.find? (fun kv => kv.1 = k)).map Prod.snd

/-- Return value of a command handler before normalization: Python None, a
bare integer, a pair of integer and message, or a full response object. -/
inductive HandlerRet where
  | rnone
  | rint (n : Int)
  | rpair (n : Int) (m : String)
  | rdict (d : List (String × JVal))
deriving DecidableEq

/-- Embedding of handle_start: call Session.start and on success return the
pair (0, Yeah!); the RuntimeError of start propagates. -/
def handle_start (s : Session) : Except String (HandlerRet × Session) :=
  (s.start).map (fun s2 => (HandlerRet.rpair 0 ("Yeah!"), s2))

/-- Embedding of handle_stop: call Session.stop and return Python None. -/
def handle_stop (s : Session) : HandlerRet × Session :=
  (HandlerRet.rnone, s.stop)

/-- Embedding of handle_status: a response object built from the counters;
note that the source writes the drop counter under the key drop_px. -/
def handle_status (s : Session) : HandlerRet × Session :=
  (HandlerRet.rdict
    [("result", JVal.jint 0),
     ("msg", JVal.jstr ("Here\x27s your status!")),
     ("good_rx", JVal.jint (s.good_rx : Int)),
     ("bad_rx", JVal.jint (s.bad_rx : Int)),
     ("expect_data", JVal.jbool s.expect_data),
     ("drop_px", JVal.jint (s.drop_rx : Int)),
     ("nsamples", JVal.jint (s.rx_data_buf.length : Int))], s)

/-- Embedding of handle_fetch: read nsamples from the payload; unless it is
an integer between 0 and the current buffer length, return the pair
(666, error message) and leave the buffer alone; otherwise return the first
nsamples records and delete them from the head of the buffer.  A Python
bool is not accepted, since type(True) is int is false; this is covered by
jbool being distinct from jint. -/
def handle_fetch (s : Session) (payload : List (String × JVal)) :
    HandlerRet × Session :=
  match jget payload ("nsamples") with
  | some (JVal.jint n) =>
    if n < 0 || (s.rx_data_buf.length : Int) < n then
      (HandlerRet.rpair 666 ("Not the correct number of samples!"), s)
    else
      (HandlerRet.rdict
        [("result", JVal.jint 0),
         ("msg", JVal.jstr ("Here\x27s your data!")),
         ("data", JVal.jrecords (s.rx_data_buf.take n.toNat))],
       { s with rx_data_buf := s.rx_data_buf.drop n.toNat })
  | _ => (HandlerRet.rpair 666 ("Not the correct number of samples!"), s)

/-- Response normalization of handle_ws: None becomes result 0, a bare
integer becomes that result code, a pair becomes result and message, a
response object passes through; the original command is appended under the
key cmd. -/
def normalize_ret (cmd : String) (r : HandlerRet) : List (String × JVal) :=
  (match r with
   | HandlerRet.rnone => [("result", JVal.jint 0), ("msg", JVal.jstr ("Maybe ok?"))]
   | HandlerRet.rint n => [("result", JVal.jint n), ("msg", JVal.jstr ("Maybe ok? Maybe not."))]
   | HandlerRet.rpair n m => [("result", JVal.jint n), ("msg", JVal.jstr m)]
   | HandlerRet.rdict d => d) ++ [("cmd", JVal.jstr cmd)]

/-- Outcome of one message iteration of handle_ws: a json reply sent to the
client, a deliberate close of the websocket (close command, undecodable or
unknown command), or an uncaught exception escaping the handler, which
aborts the websocket handler without sending a reply.  The dispatch loop of
handle_ws wraps no handler call in a try block, so a handler exception
takes the third form. -/
inductive WsOutcome where
  | reply (resp : List (String × JVal)) (s : Session)
  | closed (reason : String) (s : Session)
  | crashed (exc : String)
deriving DecidableEq

/-- One message iteration of handle_ws for an already decoded payload with
the given cmd field: the close command closes the socket; an unknown
command closes it with a protocol error; otherwise the matching handler
runs and its normalized return is sent, while an exception raised by the
handler propagates out of the loop. -/
def handle_ws_msg (s : Session) (cmd : String) (payload : List (String × JVal)) :
    WsOutcome :=
  if cmd = "close" then WsOutcome.closed ("Bye!") s
  else if cmd = "start" then
    match handle_start s with
    | Except.error e => WsOutcome.crashed e
    | Except.ok (r, s2) => WsOutcome.reply (normalize_ret cmd r) s2
  else if cmd = "stop" then
    let p := handle_stop s
    WsOutcome.reply (normalize_ret cmd p.1) p.2
  else if cmd = "status" then
    let p := handle_status s
    WsOutcome.reply (normalize_ret cmd p.1) p.2
  else if cmd = "fetch" then
    let p := handle_fetch s payload
    WsOutcome.reply (normalize_ret cmd p.1) p.2
  else WsOutcome.closed ("Command is not defined.") s

/-!
Spec-side definitions and concrete inputs used by the claims.
-/

/-- Status byte accepted by the status table. -/
def isStatusChar (b : Nat) : Bool := b = 82 || b = 72 || b = 73

/-- Written from the words of the specification for the refinement claim
about the record parser: a fixed-width data record TTTTTT S AAAAAAAA S
AAAAAAAA, that is 28 bytes with a six-digit decimal timestamp, one status
character, an eight-digit decimal ADC value, status and ADC repeated, the
five fields separated by single spaces. -/
def specFixedShape (l : Bytes) : Bool :=
  decide (l.length = 28) &&
  ((List.range 6).all (fun i => isDigit (l.getD i 0))) &&
  decide (l.getD 6 0 = 32) && isStatusChar (l.getD 7 0) &&
  decide (l.getD 8 0 = 32) &&
  ((List.range 8).all (fun i => isDigit (l.getD (9 + i) 0))) &&
  decide (l.getD 17 0 = 32) && isStatusChar (l.getD 18 0) &&
  decide (l.getD 19 0 = 32) &&
  ((List.range 8).all (fun i => isDigit (l.getD (20 + i) 0)))

/-- Field-wise acceptance condition of the record parser, stated through
the field list: at least five whitespace-separated fields, of which the
first, third and fifth are Python integers and the second and fourth are
accepted status bytes. -/
def record_fields_ok (line : Bytes) : Bool :=
  let arr := pySplit line
  decide (5 ≤ arr.length) &&
  (pyInt (arr.getD 0 [])).isSome && (status_to_int (arr.getD 1 [])).isSome &&
  (pyInt (arr.getD 2 [])).isSome && (status_to_int (arr.getD 3 [])).isSome &&
  (pyInt (arr.getD 4 [])).isSome

/-- Rejection condition of handle_fetch: the nsamples field, when it is an
integer at all, is negative or larger than the current buffer size.  A
missing or non-integer field satisfies this vacuously. -/
def fetch_invalid (s : Session) (p : List (String × JVal)) : Prop :=
  ∀ n : Int, jget p ("nsamples") = some (JVal.jint n) →
    n < 0 ∨ (s.rx_data_buf.length : Int) < n

/-- Session in the idle state with empty buffers and counters. -/
def idleSession : Session :=
  { recvbuf := [], expect_data := false, sent_stop := false,
    sent_start := false, txqueue := [], rx_data_buf := [],
    good_rx := 0, bad_rx := 0, drop_rx := 0, tx_writes := [] }

/-- Session whose transmit queue still holds one configuration command. -/
def busySession : Session :=
  { idleSession with txqueue := [CmdEntry.plain (ascii ("sys_info\n"))] }

/-- Record with all components zero, used as a generic buffer element. -/
def rec0 : SampleRec := (0, 0, 0, 0, 0)

/-- Session holding two parsed records and non-trivial counters. -/
def statusSession : Session :=
  { idleSession with
    expect_data := true, good_rx := 3, bad_rx := 5, drop_rx := 7,
    rx_data_buf := [(336, 2, 19790, 0, 1), (337, 1, 2, 2, 3)] }

/-- Sample data line taken from the docstring of try_parse_line. -/
def goodLine : Bytes := ascii ("000336 I 00019790 R 00000001")

/-- The same line with the status character X, which the status table does
not contain. -/
def badLine : Bytes := ascii ("000336 X 00019790 R 00000001")

/-- Variable-width record that the parser accepts although it is not of
the fixed-width shape. -/
def shortLine : Bytes := ascii ("1 I 2 R 3")

/-- Chunking of a stream whose first 600 bytes contain no carriage return:
feeding it in these two chunks trips the 512-byte truncation between the
chunks, while feeding it whole does not. -/
def overflowChunks : List Bytes := [List.replicate 600 65, [13]]

/-- Small chunk list on which the no-overflow side condition holds. -/
def smallChunks : List Bytes := [[72, 13, 65], [66, 13]]

/-- Fetch payload requesting one sample. -/
def fetchPayload : List (String × JVal) := [("nsamples", JVal.jint 1)]

/-- Reply that the dispatcher sends for a status command against
statusSession, written out field by field. -/
def statusReplyFields : List (String × JVal) :=
  [("result", JVal.jint 0),
   ("msg", JVal.jstr ("Here\x27s your status!")),
   ("good_rx", JVal.jint 3),
   ("bad_rx", JVal.jint 5),
   ("expect_data", JVal.jbool true),
   ("drop_px", JVal.jint 7),
   ("nsamples", JVal.jint 2),
   ("cmd", JVal.jstr ("status"))]

/-!
Helper lemmas about the line splitter and the sample buffer.
-/

/-- A buffer without a carriage return splits into no lines and itself. -/
theorem splitCR_eq_of_no_cr (l : Bytes) (h : 13 ∉ l) : splitCR l = ([], l) := by
  induction l with
  | nil => rfl
  | cons b rest ih =>
    have hb : b ≠ 13 := fun hb => h (hb ▸ List.mem_cons_self b rest)
    have h2 : 13 ∉ rest := fun hm => h (List.mem_cons_of_mem b hm)
    simp [splitCR, hb, ih h2]

/-- The residual of the line splitter contains no carriage return. -/
theorem splitCR_resid_no_cr (l : Bytes) : 13 ∉ (splitCR l).2 := by
  induction l with
  | nil => simp [splitCR]
  | cons b rest ih =>
    by_cases hb : b = 13
    · simpa [splitCR, hb] using ih
    · rcases hsp : splitCR rest with ⟨ls, r⟩
      rw [hsp] at ih
      cases ls with
      | nil =>
        simp [splitCR, hb, hsp]
        exact ⟨fun he => hb he.symm, ih⟩
      | cons l0 ls2 => simpa [splitCR, hb, hsp] using ih

/-- Splitting a concatenation equals splitting the first part and then
splitting its residual glued to the second part. -/
theorem splitCR_append (a b : Bytes) :
    splitCR (a ++ b) =
      ((splitCR a).1 ++ (splitCR ((splitCR a).2 ++ b)).1,
       (splitCR ((splitCR a).2 ++ b)).2) := by
  induction a with
  | nil => simp [splitCR]
  | cons x a ih =>
    by_cases hx : x = 13
    · subst hx
      have hc : (13 :: a) ++ b = 13 :: (a ++ b) := rfl
      rw [hc]
      simp [splitCR, ih]
    · rcases hsp : splitCR a with ⟨la, ra⟩
      rw [hsp] at ih
      simp only [List.nil_append] at ih
      have hc : (x :: a) ++ b = x :: (a ++ b) := rfl
      rw [hc]
      cases la with
      | nil =>
        rcases h2 : splitCR (ra ++ b) with ⟨L2, R2⟩
        rw [h2] at ih
        cases L2 <;> simp [splitCR, if_neg hx, ih, hsp, h2]
      | cons l0 la2 =>
        simp [splitCR, if_neg hx, ih, hsp]

/-- While the residual buffer never exceeds the 512-byte cap, feeding chunk
by chunk emits exactly the stripped lines of the whole stream. -/
theorem framer_run_lines (chunks : List Bytes) :
    ∀ buf : Bytes, 13 ∉ buf → noOverflow buf chunks = true →
      (framer_run buf chunks).1 = ((splitCR (buf ++ chunks.flatten)).1).map stripLine := by
  induction chunks with
  | nil =>
    intro buf hb _
    simp [framer_run, splitCR_eq_of_no_cr buf hb]
  | cons c cs ih =>
    intro buf hb hno
    simp only [noOverflow, Bool.and_eq_true, decide_eq_true_eq] at hno
    obtain ⟨hlen, hrest⟩ := hno
    have hfeed : framer_feed buf c =
        ((splitCR (buf ++ c)).1.map stripLine, (splitCR (buf ++ c)).2) := by
      simp only [framer_feed]
      have hng : ¬ (splitCR (buf ++ c)).2.length > 512 := by omega
      simp [hng]
    simp only [framer_run, hfeed]
    rw [ih _ (splitCR_resid_no_cr _) hrest]
    have hj : buf ++ (c :: cs).flatten = (buf ++ c) ++ cs.flatten := by simp
    rw [hj, splitCR_append (buf ++ c) cs.flatten]
    simp

/-- Folding records one at a time from an empty buffer leaves the newest
min 512 records and counts everything beyond 512 as dropped. -/
theorem append_all_eq (rs : List SampleRec) :
    append_all rs = (rs.drop (rs.length - 512), rs.length - 512) := by
  induction rs using List.reverseRecOn with
  | nil => simp [append_all]
  | append_singleton l r ih =>
    have hstep : append_all (l ++ [r]) = buf_append (append_all l) r := by
      simp [append_all, List.foldl_append]
    rw [hstep, ih]
    by_cases h : l.length ≤ 511
    · have h0 : l.length - 512 = 0 := by omega
      have hc : ¬ ((l ++ [r]).length > 512) := by
        rw [List.length_append]; simp; omega
      have h1 : (l ++ [r]).length - 512 = 0 := by
        rw [List.length_append]; simp; omega
      simp [buf_append, h0, hc, h1]
      intro _
      have h2 : l.length - 511 = 0 := by omega
      simp [h2]
    · push_neg at h
      have hm : (l.drop (l.length - 512)).length = 512 := by
        rw [List.length_drop]; omega
      have hcond : (l.drop (l.length - 512) ++ [r]).length > 512 := by
        rw [List.length_append, hm]; simp
      have hk : (l.drop (l.length - 512) ++ [r]).length - 512 = 1 := by
        rw [List.length_append, hm]; simp
      simp only [buf_append, hcond, if_pos, hk]
      have hdrop1 : (l.drop (l.length - 512) ++ [r]).drop 1 =
          l.drop (l.length - 512 + 1) ++ [r] := by
        rw [List.drop_append_of_le_length (by omega), List.drop_drop]
      have harith : l.length - 512 + 1 = (l ++ [r]).length - 512 := by
        rw [List.length_append]; simp; omega
      rw [hdrop1, harith]
      rw [List.drop_append_of_le_length (by rw [← harith]; omega)]

/-!
Claim theorems.
-/

/-- C1, counterexample.  Dispatching start on a session whose transmit
queue still holds a command does not produce a reply with a non-zero
result: the RuntimeError of Session.start escapes the dispatch loop of
handle_ws, which wraps no handler call in a try block, so the websocket
handler aborts and the connection is dropped without any response. -/
theorem start_busy_crashes_counterexample :
    handle_ws_msg busySession ("start") [] =
      WsOutcome.crashed ("Cannot start while there are commands in tx queue!") := rfl

/-- C1, amended.  For every start command dispatched while the command
queue is non-empty, the StateError raised by Session.start propagates
uncaught out of the dispatcher: no response message is sent and the
websocket handler aborts, dropping the client connection. -/
theorem start_busy_no_reply (s : Session) (p : List (String × JVal))
    (h : s.txqueue ≠ []) :
    handle_ws_msg s ("start") p =
      WsOutcome.crashed ("Cannot start while there are commands in tx queue!") := by
  have hl : s.txqueue.length ≠ 0 := by simpa using h
  simp [handle_ws_msg, handle_start, Session.start, hl, Except.map]

/-- C1, witness for the amended theorem at a concrete busy session. -/
theorem start_busy_no_reply_witness :
    busySession.txqueue ≠ [] ∧
    handle_ws_msg busySession ("start") [] =
      WsOutcome.crashed ("Cannot start while there are commands in tx queue!") :=
  ⟨by decide, start_busy_no_reply busySession [] (by decide)⟩

set_option maxRecDepth 100000 in
/-- C2, counterexample.  Feeding 600 bytes without a carriage return and
then the carriage return in two chunks trips the 512-byte truncation of
the receive buffer between the calls, so the emitted line differs from the
one obtained by feeding the whole stream at once: chunk-boundary
independence fails for the line framer as implemented. -/
theorem framer_chunk_dependent_counterexample :
    (framer_run [] overflowChunks).1 ≠ (framer_feed [] overflowChunks.flatten).1 := by
  decide

/-- C2, amended.  For every byte stream and every chunking under which the
residual receive buffer never exceeds the 512-byte cap (so the truncation
branch of data_received never fires), feeding the chunks one by one yields
exactly the same sequence of logical lines as feeding the whole stream in
a single call. -/
theorem framer_chunk_independent_of_no_overflow (chunks : List Bytes)
    (h : noOverflow [] chunks = true) :
    (framer_run [] chunks).1 = (framer_feed [] chunks.flatten).1 := by
  rw [framer_run_lines chunks [] (by simp) h]
  simp [framer_feed]

/-- C2, witness for the amended theorem on a concrete chunking. -/
theorem framer_chunk_independent_witness :
    noOverflow [] smallChunks = true ∧
    (framer_run [] smallChunks).1 = (framer_feed [] smallChunks.flatten).1 :=
  ⟨by decide, framer_chunk_independent_of_no_overflow smallChunks (by decide)⟩

/-- C3.  handle_fetch answers the sentinel pair (666, message) and leaves
the sample buffer untouched whenever the nsamples field is absent, not an
integer, negative or greater than the buffer size; for a valid count it
returns exactly the first nsamples records, in order, and removes exactly
those from the head of the buffer. -/
theorem fetch_validates_and_drains (s : Session) (p : List (String × JVal)) :
    (fetch_invalid s p →
      handle_fetch s p = (HandlerRet.rpair 666 ("Not the correct number of samples!"), s)) ∧
    (∀ n : Int, jget p ("nsamples") = some (JVal.jint n) → 0 ≤ n →
      n ≤ (s.rx_data_buf.length : Int) →
      handle_fetch s p =
        (HandlerRet.rdict
          [("result", JVal.jint 0),
           ("msg", JVal.jstr ("Here\x27s your data!")),
           ("data", JVal.jrecords (s.rx_data_buf.take n.toNat))],
         { s with rx_data_buf := s.rx_data_buf.drop n.toNat }) ∧
      (s.rx_data_buf.take n.toNat).length = n.toNat ∧
      s.rx_data_buf.take n.toNat ++ s.rx_data_buf.drop n.toNat = s.rx_data_buf) := by
  constructor
  · intro hinv
    rcases hg : jget p ("nsamples") with _ | v
    · simp [handle_fetch, hg]
    · rcases v with n | str | bb | rr
      · simp [handle_fetch, hg]
        intro h1
        rcases hinv n hg with h | h
        · omega
        · exact h
      · simp [handle_fetch, hg]
      · simp [handle_fetch, hg]
      · simp [handle_fetch, hg]
  · intro n hg h0 hle
    have htake : n.toNat ≤ s.rx_data_buf.length := by omega
    refine ⟨?_, ?_, List.take_append_drop _ _⟩
    · simp [handle_fetch, hg]
      omega
    · rw [List.length_take]
      omega

/-- C3, witness: fetching one of the two buffered records succeeds and
drains exactly that record. -/
theorem fetch_validates_and_drains_witness :
    jget fetchPayload ("nsamples") = some (JVal.jint 1) ∧
    ((0:Int) ≤ 1 ∧ (1:Int) ≤ (statusSession.rx_data_buf.length : Int)) ∧
    (handle_fetch statusSession fetchPayload =
        (HandlerRet.rdict
          [("result", JVal.jint 0),
           ("msg", JVal.jstr ("Here\x27s your data!")),
           ("data", JVal.jrecords (statusSession.rx_data_buf.take (1:Int).toNat))],
         { statusSession with rx_data_buf := statusSession.rx_data_buf.drop (1:Int).toNat }) ∧
      (statusSession.rx_data_buf.take (1:Int).toNat).length = (1:Int).toNat ∧
      statusSession.rx_data_buf.take (1:Int).toNat ++
          statusSession.rx_data_buf.drop (1:Int).toNat = statusSession.rx_data_buf) :=
  ⟨rfl, ⟨by decide, by decide⟩,
    (fetch_validates_and_drains statusSession fetchPayload).2 1 rfl (by decide) (by decide)⟩

/-- C4, counterexample.  The parser also accepts lines that are not of the
fixed-width 28-byte shape TTTTTT S AAAAAAAA S AAAAAAAA: the variable-width
line 1 I 2 R 3 parses successfully, so it is false that every line not of
that shape is rejected. -/
theorem parser_accepts_non_fixed_width :
    (try_parse_line shortLine).isSome = true ∧ specFixedShape shortLine = false :=
  ⟨rfl, rfl⟩

/-- C4, amended.  The parser accepts a line exactly when splitting it on
whitespace yields at least five fields whose first, third and fifth are
Python decimal integers (arbitrary width, optional sign) and whose second
and fourth are exactly one of R, H, I; fields beyond the fifth are
ignored.  The fixed-width shape of the specification is a special case,
sufficient but not necessary. -/
theorem parser_accepts_iff_fields_ok (line : Bytes) :
    (try_parse_line line).isSome = record_fields_ok line := by
  simp only [try_parse_line, record_fields_ok]
  generalize pySplit line = arr
  rcases arr with _ | ⟨f0, _ | ⟨f1, _ | ⟨f2, _ | ⟨f3, _ | ⟨f4, rest⟩⟩⟩⟩⟩ <;>
    simp [parse_fields]
  cases pyInt f0 <;> cases status_to_int f1 <;> cases pyInt f2 <;>
    cases status_to_int f3 <;> cases pyInt f4 <;> simp

/-- C5.  Starting from an empty sample buffer, appending N records one at a
time with N greater than 512 leaves exactly the 512 most recent records in
arrival order and a dropped counter of N minus 512. -/
theorem sample_buffer_drop_oldest (rs : List SampleRec) (h : 512 < rs.length) :
    (append_all rs).1 = rs.drop (rs.length - 512) ∧
    (append_all rs).1.length = 512 ∧
    (append_all rs).2 = rs.length - 512 := by
  rw [append_all_eq]
  refine ⟨rfl, ?_, rfl⟩
  rw [List.length_drop]
  omega

/-- C5, witness at 513 appended records. -/
theorem sample_buffer_drop_oldest_witness :
    512 < (List.replicate 513 rec0).length ∧
    ((append_all (List.replicate 513 rec0)).1 =
        (List.replicate 513 rec0).drop ((List.replicate 513 rec0).length - 512) ∧
      (append_all (List.replicate 513 rec0)).1.length = 512 ∧
      (append_all (List.replicate 513 rec0)).2 = (List.replicate 513 rec0).length - 512) :=
  ⟨by simp, sample_buffer_drop_oldest _ (by simp)⟩

/-- C6.  Calling enqueue_command while the device is measuring
(expect_data) or armed (sent_start) raises the StateError; the source
raises before touching the queue, so the session, and with it the queue,
is exactly as before the call. -/
theorem enqueue_rejected_while_busy (s : Session) (cmds : List CmdEntry)
    (h : s.expect_data = true ∨ s.sent_start = true) :
    s.enqueue_command cmds =
      Except.error ("Can only enqueue commands while system is not measuring!") := by
  have hc : (s.expect_data || s.sent_start) = true := by
    rcases h with h | h <;> simp [h]
  simp [Session.enqueue_command, hc]

/-- C6, witness at a measuring session. -/
theorem enqueue_rejected_while_busy_witness :
    (statusSession.expect_data = true ∨ statusSession.sent_start = true) ∧
    statusSession.enqueue_command [] =
      Except.error ("Can only enqueue commands while system is not measuring!") :=
  ⟨Or.inl (by decide), enqueue_rejected_while_busy _ [] (Or.inl (by decide))⟩

/-- C7.  Evaluation of the status command: the reply carries result 0,
good_rx, bad_rx, expect_data and nsamples equal to the buffer size, but
the dropped counter is written under the key drop_px, not drop_rx; the
internal counter is named drop_rx throughout, so the key is a slip in the
source. -/
theorem status_reply_uses_drop_px_key :
    handle_ws_msg statusSession ("status") [] =
      WsOutcome.reply statusReplyFields statusSession ∧
    jget statusReplyFields ("drop_rx") = none ∧
    jget statusReplyFields ("drop_px") = some (JVal.jint 7) ∧
    jget statusReplyFields ("result") = some (JVal.jint 0) ∧
    jget statusReplyFields ("expect_data") = some (JVal.jbool true) ∧
    jget statusReplyFields ("nsamples") =
      some (JVal.jint (statusSession.rx_data_buf.length : Int)) :=
  ⟨rfl, rfl, rfl, rfl, rfl, rfl⟩

/-- C8.  The docstring line parses to timestamp 336, status1 2 (the code of
Integrate), adc1 19790, status2 0 (the code of Reset), adc2 1; the same
line with status character X fails to parse. -/
theorem parse_example_and_reject_x :
    try_parse_line goodLine = some (336, 2, 19790, 0, 1) ∧
    try_parse_line badLine = none :=
  ⟨rfl, rfl⟩

/-- C9.  A line that parses successfully while the session neither expects
data nor has a stop outstanding triggers the protective stop: the control
byte 0x04 is written to the transport and sent_stop is set. -/
theorem unexpected_data_forces_stop (s : Session) (line : Bytes) (r : SampleRec)
    (hp : try_parse_line line = some r)
    (hm : s.expect_data = false) (hs : s.sent_stop = false) :
    (process_line s line).sent_stop = true ∧
    (process_line s line).tx_writes = s.tx_writes ++ [[4]] := by
  simp only [process_line, hp, hm, hs, Bool.false_and, if_neg Bool.false_ne_true]
  simp [Session.stop]
  split <;> simp

/-- C9, witness: a data line arriving at the idle session forces the stop
write. -/
theorem unexpected_data_forces_stop_witness :
    try_parse_line goodLine = some (336, 2, 19790, 0, 1) ∧
    idleSession.expect_data = false ∧ idleSession.sent_stop = false ∧
    ((process_line idleSession goodLine).sent_stop = true ∧
      (process_line idleSession goodLine).tx_writes = idleSession.tx_writes ++ [[4]]) :=
  ⟨rfl, rfl, rfl,
    unexpected_data_forces_stop idleSession goodLine (336, 2, 19790, 0, 1) rfl rfl rfl⟩

/-- C10.  In every session state, a line that parses successfully
increments good_rx and is appended to the sample buffer with the usual
overflow accounting; the only caveat is the Start Measurement transition,
which clears the buffer when this very line confirms the measurement, so
the hypothesis excludes a line that both parses and carries the start
banner while sent_start holds. -/
theorem parsed_line_always_counted (s : Session) (line : Bytes) (r : SampleRec)
    (hp : try_parse_line line = some r)
    (hb : ¬ (s.sent_start = true ∧ hasSub startBanner line = true)) :
    (process_line s line).good_rx = s.good_rx + 1 ∧
    (process_line s line).rx_data_buf = (buf_append (s.rx_data_buf, s.drop_rx) r).1 ∧
    (process_line s line).drop_rx = (buf_append (s.rx_data_buf, s.drop_rx) r).2 := by
  have hb2 : (s.sent_start && hasSub startBanner line) = false := by
    cases h1 : s.sent_start <;> cases h2 : hasSub startBanner line <;> simp_all
  simp only [process_line, hp]
  split <;> (simp [Session.stop, hb2] <;> split <;> simp [hb2])

/-- C10, witness at a measuring session with two buffered records. -/
theorem parsed_line_always_counted_witness :
    try_parse_line goodLine = some (336, 2, 19790, 0, 1) ∧
    ¬ (statusSession.sent_start = true ∧ hasSub startBanner goodLine = true) ∧
    ((process_line statusSession goodLine).good_rx = statusSession.good_rx + 1 ∧
      (process_line statusSession goodLine).rx_data_buf =
        (buf_append (statusSession.rx_data_buf, statusSession.drop_rx)
          (336, 2, 19790, 0, 1)).1 ∧
      (process_line statusSession goodLine).drop_rx =
        (buf_append (statusSession.rx_data_buf, statusSession.drop_rx)
          (336, 2, 19790, 0, 1)).2) :=
  ⟨rfl, by decide,
    parsed_line_always_counted statusSession goodLine (336, 2, 19790, 0, 1) rfl (by decide)⟩
